import Mathlib

/-
Verification development for the Rising Tide game engine
(src/util.py and src/board.py).

Modelling conventions:
* a grid cell holds a Python int; we embed cell values as integers and the
  grid as a total function on board coordinates (Fin 18 x Fin 18 -> Int),
  matching the 18 x 18 int32 numpy array / list-of-lists of the source;
* positions handed to `is_legal`, moves, etc. are raw integer pairs, as in
  the source, and are bounds-checked before any grid access, exactly as the
  source checks `in_bounds` before indexing;
* the float comparison `terrain < round_num * SINK_RATE` with
  SINK_RATE = 1/100 is embedded as the exact integer test
  `100 * value < round_num`, which agrees with the IEEE double comparison
  for every int32 value and every reachable round number (for
  r = 100 * v the double product `r * 0.01` rounds to exactly `v`);
* `np.any(_FLOOD_TEMP_B, axis=(0, 1), out=_FLOOD_TEMP_BX)` writes through a
  view that overlaps the input, but numpy (since 1.13) detects such
  overlaps in ufunc reductions (`NPY_ITER_COPY_IF_OVERLAP`) and computes
  the result as if the operands did not overlap; so one `flood` call marks
  a cell iff it is below threshold and its 3 x 3 window contains a sunk
  cell or leaves the grid (the padding ring of the 20 x 20 buffer is all
  ones and is never overwritten).
-/

namespace RisingTide

/-- Board side length, BOARD_SIZE = 18 in src/util.py. -/
abbrev BOARD_SIZE : ℕ := 18

/-- A board coordinate: a pair of in-range indices. -/
abbrev Cell := Fin BOARD_SIZE × Fin BOARD_SIZE

/-- The terrain grid: an 18 x 18 integer matrix. -/
abbrev Grid := Fin BOARD_SIZE → Fin BOARD_SIZE → ℤ

/-- The four fixed city coordinates, CITIES in src/util.py, as the raw
integer pairs that `is_legal` compares moves against. -/
def CITIES : List (ℤ × ℤ) := [(5, 5), (5, 12), (12, 12), (12, 5)]

/-- The proposition that a raw integer pair is a valid board position. -/
def InB (p : ℤ × ℤ) : Prop :=
0 ≤ p.1 ∧ p.1 < (BOARD_SIZE : ℤ) ∧ 0 ≤ p.2 ∧ p.2 < (BOARD_SIZE : ℤ)

instance (p : ℤ × ℤ) : Decidable (InB p) := by
unfold InB
infer_instance

/-- in_bounds from src/util.py: `0 <= pos[0] < BOARD_SIZE and
0 <= pos[1] < BOARD_SIZE`. -/
def in_bounds (p : ℤ × ℤ) : Bool := decide (InB p)

/-- Read the grid at a raw integer pair; the source only ever indexes after
an in_bounds check, so the out-of-range default 0 is never observable. -/
def gget (g : Grid) (p : ℤ × ℤ) : ℤ :=
if h : InB p then
  g ⟨p.1.toNat, by unfold InB at h; omega⟩ ⟨p.2.toNat, by unfold InB at h; omega⟩
else 0

/-- Write value v at the raw integer pair p (functional update of one
cell), modelling `terrain[p] = v`. -/
def gset (g : Grid) (p : ℤ × ℤ) (v : ℤ) : Grid :=
fun i j => if ((i : ℤ), (j : ℤ)) = p then v else g i j

/-- is_legal from src/util.py, with the same sequence of tests:
both endpoints in bounds, source strictly positive, destination neither
-1 nor 8, neither endpoint a city. -/
def is_legal (terrain : Grid) (src dst : ℤ × ℤ) : Bool :=
if ¬ (in_bounds src = true ∧ in_bounds dst = true) then false
else if gget terrain src ≤ 0 then false
else if gget terrain dst = -1 ∨ gget terrain dst = 8 then false
else decide (src ∉ CITIES ∧ dst ∉ CITIES)

/-- The 3 x 3 window of offsets scanned by the sliding-window reduction in
flood (src/util.py); the window includes the cell itself. -/
def WINDOW : List (ℤ × ℤ) :=
[(-1, -1), (-1, 0), (-1, 1), (0, -1), (0, 0), (0, 1), (1, -1), (1, 0), (1, 1)]

/-- Whether the 3 x 3 window around (i, j) reaches outside the grid, i.e.
touches the all-ones padding ring of the 20 x 20 flood buffer. -/
def onBorder (i j : Fin BOARD_SIZE) : Bool :=
decide (i.val = 0 ∨ i.val = BOARD_SIZE - 1 ∨ j.val = 0 ∨ j.val = BOARD_SIZE - 1)

/-- Whether some in-grid cell of the 3 x 3 window around (i, j) is negative,
the `np.signbit` part of the window reduction in flood. -/
def hasSunkNeighbor (g : Grid) (i j : Fin BOARD_SIZE) : Bool :=
WINDOW.any fun d =>
  let p : ℤ × ℤ := ((i : ℤ) + d.1, (j : ℤ) + d.2)
  in_bounds p && decide (gget g p < 0)

/-- The threshold test `value < round_num * SINK_RATE` of flood, embedded
exactly as an integer comparison (see the header comment). -/
def belowThreshold (v : ℤ) (round_num : ℕ) : Bool :=
decide (100 * v < (round_num : ℤ))

/-- flood from src/util.py: a cell is set to -1 iff its value is below the
rising threshold and its 3 x 3 window contains a negative cell or touches
the border padding; all other cells are returned unchanged. -/
def flood (g : Grid) (round_num : ℕ) : Grid :=
fun i j =>
  if belowThreshold (g i j) round_num && (hasSunkNeighbor g i j || onBorder i j)
  then -1 else g i j

/-- START_TERRAIN from src/util.py: an array filled with 1, then for
i = 0 .. 8 the block [i:-i, i:-i] is set to min(i, 5) + 1 (for i = 0 the
slice 0:-0 is empty, encoded by the 1 ≤ i condition), then the four city
cells are zeroed. -/
def START_TERRAIN : Grid :=
let base : Grid := fun _ _ => 1
let filled : Grid := (List.range (BOARD_SIZE / 2)).foldl
  (fun g i => fun r c =>
    if 1 ≤ i ∧ i ≤ r.val ∧ r.val ≤ BOARD_SIZE - 1 - i
        ∧ i ≤ c.val ∧ c.val ≤ BOARD_SIZE - 1 - i
    then (min i 5 : ℤ) + 1 else g r c)
  base
fun r c => if ((r : ℤ), (c : ℤ)) ∈ CITIES then 0 else filled r c

/-- A candidate move in the canonical frame: source and destination raw
integer pairs. -/
abbrev Move := (ℤ × ℤ) × (ℤ × ℤ)

/-- One iteration of the move application loop of Board.step
(src/board.py): re-validate against the current grid; if legal, decrement
the source then increment the destination, else leave the grid unchanged
(the skip writes no record of any kind). -/
def applyMove (g : Grid) (m : Move) : Grid :=
if is_legal g m.1 m.2 = true then
  let g1 := gset g m.1 (gget g m.1 - 1)
  gset g1 m.2 (gget g1 m.2 + 1)
else g

/-- The full move application loop of Board.step: the shuffled candidate
list is walked in order, None entries are skipped. -/
def applyMoves (g : Grid) (moves : List (Option Move)) : Grid :=
moves.foldl (fun g m => match m with | none => g | some mv => applyMove g mv) g

/-- The match state owned by Board (src/board.py): terrain, round counter,
and the per-agent score list (sentinel -1 = still alive). -/
structure Board where
  terrain : Grid
  round_num : ℕ
  scores : Fin 4 → ℤ

/-- The four city cells as board coordinates, index k is the city of
agent k. -/
def CITY : Fin 4 → Cell
  | 0 => (5, 5)
  | 1 => (5, 12)
  | 2 => (12, 12)
  | 3 => (12, 5)

/-- Board.alive: agent k is alive iff its city cell is not -1. -/
def alive (b : Board) (k : Fin 4) : Bool :=
decide (b.terrain (CITY k).1 (CITY k).2 ≠ -1)

/-- Number of living agents, `sum(self.alive)`. -/
def aliveCount (b : Board) : ℕ :=
((List.finRange 4).filter (fun k => alive b k)).length

/-- Board.running: more than one agent alive and
`round_num * SINK_RATE < 8`; the float comparison holds iff
round_num < 800 (the double product 800 * 0.01 is exactly 8.0). -/
def running (b : Board) : Bool :=
decide (1 < aliveCount b) && decide (b.round_num < 800)

/-- Board.end_game: every score still holding the alive sentinel -1
becomes the survivor score 800; terrain and round counter untouched. -/
def end_game (b : Board) : Board :=
{ b with scores := fun k => if b.scores k = -1 then 800 else b.scores k }

/-- Board.step from src/board.py, with the shuffled list of candidate
moves (the values returned by get_move for the living agents, in the order
produced by random.shuffle) passed as a parameter: apply the candidates in
order with re-validation, flood at the current round number, record the
elimination round of every agent whose city is now sunk and whose score is
still the sentinel, increment the round counter, and finalize via end_game
when the resulting state is no longer running. There is no terminal guard
anywhere in the body. -/
def stepMoves (b : Board) (moves : List (Option Move)) : Board :=
let t1 := applyMoves b.terrain moves
let t2 := flood t1 b.round_num
let sc : Fin 4 → ℤ := fun k =>
  if b.scores k = -1 ∧ t2 (CITY k).1 (CITY k).2 = -1
  then (b.round_num : ℤ) else b.scores k
let b1 : Board := ⟨t2, b.round_num + 1, sc⟩
if running b1 = true then b1 else end_game b1

/-- The freshly constructed board: START_TERRAIN, round 0, all scores at
the alive sentinel. -/
def initBoard : Board := ⟨START_TERRAIN, 0, fun _ => -1⟩

/-- Board states reachable from the initial board by step calls, with the
shuffled per-round candidate lists arbitrary (every list the real
get_move / shuffle pipeline can produce is of this shape, so invariants
proved over all lists hold of the real reachable states). -/
inductive Reachable : Board → Prop where
  | init : Reachable initBoard
  | step (b : Board) (moves : List (Option Move)) :
      Reachable b → Reachable (stepMoves b moves)

/-- One step of the coordinate rotation of rotate_move (src/util.py):
`i, j = BOARD_SIZE - 1 - j, i`. -/
def rot1 (p : ℤ × ℤ) : ℤ × ℤ := ((BOARD_SIZE : ℤ) - 1 - p.2, p.1)

/-- rotate_move from src/util.py: None passes through; otherwise both
endpoints are rotated plr times (the source rotates the two pairs in one
loop, which is the same as iterating on each pair). -/
def rotate_move (plr : ℕ) (m : Option Move) : Option Move :=
m.map fun mv => (rot1^[plr] mv.1, rot1^[plr] mv.2)

/-- What a decision function can hand back, as seen by get_move
(src/board.py): an explicit None, a value that unpacks into two integer
pairs, or a value whose unpacking / isinstance checks fail. A failing
decomposition raises, and the except clause of the second try block
enumerates exactly (TypeError, ValueError, IndexError, AttributeError):
a decomposition failure is therefore either one of those four classes
(malformedCaught — this covers every ordinary malformed value, and every
value failing the isinstance check, which raises TypeError) or an
exception of any other class, e.g. a RuntimeError raised by a custom
iterator during unpacking, which no clause catches (malformedEscapes). -/
inductive RawMove where
  | pass
  | malformedCaught
  | malformedEscapes
  | pair (i0 j0 i1 j1 : ℤ)
deriving DecidableEq

/-- One invocation of a decision function: it raises an Exception (caught
by the first try block of get_move), raises a BaseException outside
Exception (which `except Exception` does not catch), or returns a raw
value, having taken more than the 100 ms budget or not. -/
inductive BotOutcome where
  | throws
  | throwsBase
  | returns (slow : Bool) (raw : RawMove)
deriving DecidableEq

/-- What one call of Board.get_move does to its caller: return an
optional canonical-frame move, or let an exception escape — step catches
nothing, so an escaping exception aborts the match. -/
inductive GetMoveResult where
  | ret (m : Option Move)
  | exn
deriving DecidableEq

/-- One counterclockwise quarter turn of the grid, np.rot90 applied once:
the rotated cell (i, j) reads the original cell (j, N - 1 - i). -/
def rot90 (g : Grid) : Grid := fun i j => g j i.rev

/-- Board.get_move from src/board.py, with the behavior of the opaque
decision function supplied as a BotOutcome: the bot sees the terrain
rotated bot_idx quarter turns; an Exception raised by the call is caught
and yields None, while a BaseException outside Exception escapes; an
over-budget call yields None before the returned value is ever
inspected; a None return yields None; a decomposition failure in one of
the four caught classes yields None, one of any other class escapes; a
well-formed pair is checked with is_legal against the same rotated
snapshot the bot observed and, when legal, rotated back to the canonical
frame with rotate_move (4 - bot_idx), otherwise None. The function
mutates no match state. -/
def get_move (terrain : Grid) (bot_idx : Fin 4) (outcome : BotOutcome) :
    GetMoveResult :=
let rotated := rot90^[bot_idx.val] terrain
match outcome with
| .throws => .ret none
| .throwsBase => .exn
| .returns slow raw =>
  if slow then .ret none
  else match raw with
    | .pass => .ret none
    | .malformedCaught => .ret none
    | .malformedEscapes => .exn
    | .pair i0 j0 i1 j1 =>
      if is_legal rotated (i0, j0) (i1, j1) = true
      then .ret (rotate_move (4 - bot_idx.val) (some ((i0, j0), (i1, j1))))
      else .ret none

/-- Adjacency of board cells in the 8-neighborhood sense of the 3 x 3
flood window (a cell is adjacent to itself and to its up to 8
neighbors). -/
def adj8 (i j i2 j2 : Fin BOARD_SIZE) : Prop :=
((i2 : ℤ) - (i : ℤ)).natAbs ≤ 1 ∧ ((j2 : ℤ) - (j : ℤ)).natAbs ≤ 1

/-- Written from the words of the spec, for comparison with flood in
claim C2: a cell is reachable from the grid border through a path of
already-sunk cells when it lies on the border itself, or is adjacent to
an already-sunk cell that is so reachable. -/
inductive SunkPath (g : Grid) : Fin BOARD_SIZE → Fin BOARD_SIZE → Prop where
  | border (i j : Fin BOARD_SIZE) : onBorder i j = true → SunkPath g i j
  | cons (i j i2 j2 : Fin BOARD_SIZE) : adj8 i j i2 j2 → g i2 j2 = -1 →
      SunkPath g i2 j2 → SunkPath g i j

/-- Flooding sequentially through round r: flood at round 0, then at
round 1, ..., then at round r, as successive rounds of the game do. -/
def floodThrough (g : Grid) : ℕ → Grid
  | 0 => flood g 0
  | r + 1 => flood (floodThrough g r) (r + 1)

/-- Test grid for claim C2: a landlocked sunk cell at (9, 9), a
below-threshold cell at (9, 10), everything else at height 8. -/
def lakeGrid : Grid :=
fun i j =>
  if i.val = 9 ∧ j.val = 9 then -1
  else if i.val = 9 ∧ j.val = 10 then 0
  else 8

/-- Test grid for claim C4: a two-cell below-threshold corridor from the
border at (0, 9) and (1, 9), everything else at height 8. -/
def corridorGrid : Grid :=
fun i j => if (i.val = 0 ∨ i.val = 1) ∧ j.val = 9 then 0 else 8

/-- Test grid for claim C3: every non-city cell at height 4, far below the
8-cap, so two moves into one destination both stay legal. -/
def conflictGrid : Grid :=
fun i j => if ((i : ℤ), (j : ℤ)) ∈ CITIES then 0 else 4

/-- Board used for the claim C3 counterexample. -/
def conflictBoard : Board := ⟨conflictGrid, 0, fun _ => -1⟩

/-- Test grid for the amended claim C3: every non-city cell at height 7,
so one increment brings a destination to the 8-cap. -/
def capGrid : Grid :=
fun i j => if ((i : ℤ), (j : ℤ)) ∈ CITIES then 0 else 7

/-- Terminal board for claim C1: the start terrain with all four city
cells already sunk, so no agent is alive, no agent is polled for a move
(the per-round candidate list is empty), and running is false. -/
def deadBoard : Board :=
⟨fun i j => if ((i : ℤ), (j : ℤ)) ∈ CITIES then -1 else START_TERRAIN i j,
  0, fun _ => 0⟩

/-- The raw pair of a board coordinate is in bounds. -/
lemma InB_pair (i j : Fin BOARD_SIZE) : InB ((i : ℤ), (j : ℤ)) := by
have hi := i.isLt
have hj := j.isLt
unfold InB
refine ⟨?_, ?_, ?_, ?_⟩ <;> dsimp only <;> omega

/-- in_bounds decides InB. -/
lemma in_bounds_iff (p : ℤ × ℤ) : in_bounds p = true ↔ InB p := by
simp [in_bounds]

/-- Reading the grid at the raw pair of a board coordinate is just the
grid value there. -/
lemma gget_pair (g : Grid) (i j : Fin BOARD_SIZE) :
    gget g ((i : ℤ), (j : ℤ)) = g i j := by
unfold gget
rw [dif_pos (InB_pair i j)]
rfl

/-- Every in-bounds raw pair is the raw pair of a unique board coordinate,
and gget reads the grid there. -/
lemma InB_cell (p : ℤ × ℤ) (h : InB p) :
    ∃ i j : Fin BOARD_SIZE, ((i : ℤ), (j : ℤ)) = p ∧ ∀ g : Grid, gget g p = g i j := by
obtain ⟨h1, h2, h3, h4⟩ := h
refine ⟨⟨p.1.toNat, by omega⟩, ⟨p.2.toNat, by omega⟩, ?_, ?_⟩
· have e1 : ((p.1.toNat : ℕ) : ℤ) = p.1 := Int.toNat_of_nonneg h1
  have e2 : ((p.2.toNat : ℕ) : ℤ) = p.2 := Int.toNat_of_nonneg h3
  simp [e1, e2]
· intro g
  unfold gget
  rw [dif_pos ⟨h1, h2, h3, h4⟩]

/-- Updating at p then reading at an in-bounds q reads the new value iff
q = p. -/
lemma gget_gset (g : Grid) (p q : ℤ × ℤ) (v : ℤ) (hq : InB q) :
    gget (gset g p v) q = if q = p then v else gget g q := by
obtain ⟨i, j, hij, hval⟩ := InB_cell q hq
rw [hval (gset g p v), hval g]
unfold gset
rw [hij]

/-- The characterization of is_legal: positive source, destination neither
sunk nor at the 8-cap, both endpoints in bounds and neither a city. -/
lemma legal_iff (g : Grid) (src dst : ℤ × ℤ) :
    is_legal g src dst = true ↔
      InB src ∧ InB dst ∧ 0 < gget g src ∧
      gget g dst ≠ -1 ∧ gget g dst ≠ 8 ∧ src ∉ CITIES ∧ dst ∉ CITIES := by
unfold is_legal
rcases Classical.em (in_bounds src = true ∧ in_bounds dst = true) with hA | hA
· rw [if_neg (not_not_intro hA)]
  rcases Classical.em (gget g src ≤ 0) with hB | hB
  · rw [if_pos hB]
    simp only [Bool.false_eq_true, false_iff]
    rintro ⟨-, -, hpos, -⟩
    omega
  · rw [if_neg hB]
    rcases Classical.em (gget g dst = -1 ∨ gget g dst = 8) with hC | hC
    · rw [if_pos hC]
      simp only [Bool.false_eq_true, false_iff]
      rintro ⟨-, -, -, hd1, hd2, -⟩
      tauto
    · rw [if_neg hC]
      push_neg at hC
      rw [decide_eq_true_iff]
      constructor
      · rintro ⟨c1, c2⟩
        exact ⟨(in_bounds_iff src).mp hA.1, (in_bounds_iff dst).mp hA.2,
          by omega, hC.1, hC.2, c1, c2⟩
      · rintro ⟨-, -, -, -, -, c1, c2⟩
        exact ⟨c1, c2⟩
· rw [if_pos hA]
  simp only [Bool.false_eq_true, false_iff]
  rintro ⟨a, b, -⟩
  exact hA ⟨(in_bounds_iff src).mpr a, (in_bounds_iff dst).mpr b⟩

/-- flood either sinks a cell or leaves it alone. -/
lemma flood_cases (g : Grid) (r : ℕ) (i j : Fin BOARD_SIZE) :
    flood g r i j = -1 ∨ flood g r i j = g i j := by
unfold flood
split
· exact Or.inl rfl
· exact Or.inr rfl

/-- A sunk cell stays sunk under flood: it is below every threshold and
its own window contains it. -/
lemma flood_keeps_sunk (g : Grid) (r : ℕ) (i j : Fin BOARD_SIZE)
    (h : g i j = -1) : flood g r i j = -1 := by
unfold flood
split
· rfl
· exact h

/-- The window scan finds a negative cell iff one exists in the
8-neighborhood (the cell itself included). -/
lemma hasSunk_iff (g : Grid) (i j : Fin BOARD_SIZE) :
    hasSunkNeighbor g i j = true ↔
      ∃ i2 j2 : Fin BOARD_SIZE, adj8 i j i2 j2 ∧ g i2 j2 < 0 := by
unfold hasSunkNeighbor
rw [List.any_eq_true]
constructor
· rintro ⟨d, hd, hcond⟩
  rw [Bool.and_eq_true, decide_eq_true_iff] at hcond
  obtain ⟨hin, hlt⟩ := hcond
  have hInB : InB ((i : ℤ) + d.1, (j : ℤ) + d.2) := (in_bounds_iff _).mp hin
  obtain ⟨i2, j2, hco, hval⟩ := InB_cell _ hInB
  have hd1 : (-1 ≤ d.1 ∧ d.1 ≤ 1) ∧ (-1 ≤ d.2 ∧ d.2 ≤ 1) := by
    fin_cases hd <;> exact ⟨⟨by norm_num, by norm_num⟩, by norm_num, by norm_num⟩
  rw [Prod.mk.injEq] at hco
  obtain ⟨hco1, hco2⟩ := hco
  clear hd hin
  refine ⟨i2, j2, ⟨?_, ?_⟩, by rw [← hval g]; exact hlt⟩
  · show ((i2 : ℤ) - (i : ℤ)).natAbs ≤ 1
    omega
  · show ((j2 : ℤ) - (j : ℤ)).natAbs ≤ 1
    omega
· rintro ⟨i2, j2, ⟨ha1, ha2⟩, hlt⟩
  refine ⟨((i2 : ℤ) - (i : ℤ), (j2 : ℤ) - (j : ℤ)), ?_, ?_⟩
  · have h1 : (i2 : ℤ) - (i : ℤ) = -1 ∨ (i2 : ℤ) - (i : ℤ) = 0 ∨ (i2 : ℤ) - (i : ℤ) = 1 := by
      omega
    have h2 : (j2 : ℤ) - (j : ℤ) = -1 ∨ (j2 : ℤ) - (j : ℤ) = 0 ∨ (j2 : ℤ) - (j : ℤ) = 1 := by
      omega
    rcases h1 with h1 | h1 | h1 <;> rcases h2 with h2 | h2 | h2 <;> rw [h1, h2] <;> decide
  · have e1 : (i : ℤ) + ((i2 : ℤ) - (i : ℤ)) = (i2 : ℤ) := by ring
    have e2 : (j : ℤ) + ((j2 : ℤ) - (j : ℤ)) = (j2 : ℤ) := by ring
    rw [Bool.and_eq_true, decide_eq_true_iff]
    constructor
    · simp only [e1, e2]
      exact (in_bounds_iff _).mpr (InB_pair i2 j2)
    · simp only [e1, e2]
      rw [gget_pair]
      exact hlt

/-- The terrain produced by one step is the flood of the move-applied
terrain at the pre-increment round number, whether or not the game ends. -/
lemma stepMoves_terrain (b : Board) (moves : List (Option Move)) :
    (stepMoves b moves).terrain = flood (applyMoves b.terrain moves) b.round_num := by
unfold stepMoves
dsimp only
split <;> rfl

/-- One step always increments the round counter by exactly one. -/
lemma stepMoves_round (b : Board) (moves : List (Option Move)) :
    (stepMoves b moves).round_num = b.round_num + 1 := by
unfold stepMoves
dsimp only
split <;> rfl

/-- Applying one candidate move keeps every cell in [-1, 8]. -/
lemma applyMove_bounds (g : Grid) (m : Move)
    (hb : ∀ i j, -1 ≤ g i j ∧ g i j ≤ 8) :
    ∀ i j, -1 ≤ applyMove g m i j ∧ applyMove g m i j ≤ 8 := by
intro i j
unfold applyMove
split
next hleg =>
  rw [legal_iff] at hleg
  obtain ⟨hs, hd, hpos, hne1, hne8, -, -⟩ := hleg
  obtain ⟨si, sj, hsco, hsval⟩ := InB_cell m.1 hs
  obtain ⟨di, dj, hdco, hdval⟩ := InB_cell m.2 hd
  have hbs := hb si sj
  have hbd := hb di dj
  have hbij := hb i j
  dsimp only
  rw [gget_gset g m.1 m.2 _ hd]
  unfold gset
  rw [hsval g, hdval g]
  rw [hsval g] at hpos
  rw [hdval g] at hne1 hne8
  split_ifs <;> omega
next => exact hb i j

/-- Applying a whole candidate list keeps every cell in [-1, 8]. -/
lemma applyMoves_bounds (moves : List (Option Move)) :
    ∀ g : Grid, (∀ i j, -1 ≤ g i j ∧ g i j ≤ 8) →
      ∀ i j, -1 ≤ applyMoves g moves i j ∧ applyMoves g moves i j ≤ 8 := by
induction moves with
| nil => intro g hb; exact hb
| cons m ms ih =>
    intro g hb
    cases m with
    | none => exact ih g hb
    | some mv => exact ih (applyMove g mv) (applyMove_bounds g mv hb)

/-- Flooding keeps every cell in [-1, 8]. -/
lemma flood_bounds (g : Grid) (r : ℕ)
    (hb : ∀ i j, -1 ≤ g i j ∧ g i j ≤ 8) :
    ∀ i j, -1 ≤ flood g r i j ∧ flood g r i j ≤ 8 := by
intro i j
rcases flood_cases g r i j with h | h <;> rw [h]
· exact ⟨le_refl _, by omega⟩
· exact hb i j

/-- The raw pair of every city coordinate is in the CITIES list. -/
lemma CITY_mem (k : Fin 4) : (((CITY k).1 : ℤ), ((CITY k).2 : ℤ)) ∈ CITIES := by
fin_cases k <;> decide

/-- A single candidate application never writes a city cell: legality
requires both endpoints to avoid the CITIES list. -/
lemma applyMove_city (g : Grid) (m : Move) (k : Fin 4) :
    applyMove g m (CITY k).1 (CITY k).2 = g (CITY k).1 (CITY k).2 := by
unfold applyMove
split
next hleg =>
  rw [legal_iff] at hleg
  obtain ⟨-, -, -, -, -, hc1, hc2⟩ := hleg
  dsimp only
  unfold gset
  have hn2 : ¬((((CITY k).1 : ℤ), ((CITY k).2 : ℤ)) = m.2) :=
    fun hco => hc2 (hco ▸ CITY_mem k)
  have hn1 : ¬((((CITY k).1 : ℤ), ((CITY k).2 : ℤ)) = m.1) :=
    fun hco => hc1 (hco ▸ CITY_mem k)
  rw [if_neg hn2, if_neg hn1]
next => rfl

/-- The whole candidate loop never writes a city cell. -/
lemma applyMoves_city (moves : List (Option Move)) :
    ∀ (g : Grid) (k : Fin 4),
      applyMoves g moves (CITY k).1 (CITY k).2 = g (CITY k).1 (CITY k).2 := by
induction moves with
| nil => intro g k; rfl
| cons m ms ih =>
    intro g k
    cases m with
    | none => exact ih g k
    | some mv => rw [show applyMoves g (some mv :: ms) = applyMoves (applyMove g mv) ms from rfl,
        ih (applyMove g mv) k, applyMove_city g mv k]

/-- Once sunk in a sequential flood, a cell stays sunk at every later
round. -/
lemma floodThrough_keeps (g : Grid) (r : ℕ) (i j : Fin BOARD_SIZE)
    (h : floodThrough g r i j = -1) :
    ∀ d, floodThrough g (r + d) i j = -1 := by
intro d
induction d with
| zero => exact h
| succ d ih => exact flood_keeps_sunk _ _ _ _ ih

/-- A cell is adjacent to itself in the window sense. -/
lemma adj8_self (i j : Fin BOARD_SIZE) : adj8 i j i j := by
unfold adj8
constructor <;> simp

/-- Every flood-path-reachable cell of lakeGrid lies on the border: the
only sunk cell of lakeGrid, (9, 9), is an interior cell, so no path of
sunk cells can end at the border. -/
lemma lake_border (i j : Fin BOARD_SIZE) (h : SunkPath lakeGrid i j) :
    onBorder i j = true := by
induction h with
| border i j hb => exact hb
| cons i j i2 j2 hadj hsunk hp ih =>
    exfalso
    have h99 : i2.val = 9 ∧ j2.val = 9 := by
      by_contra hcon
      unfold lakeGrid at hsunk
      split_ifs at hsunk
    unfold onBorder at ih
    rw [decide_eq_true_iff] at ih
    simp only [BOARD_SIZE] at ih
    omega

/-- Claim C2, counterexample: in lakeGrid the cell (9, 10) is below the
round-1 threshold and flood sinks it, yet it has no path of already-sunk
cells to the border (the sunk cell (9, 9) next to it is landlocked), so
the claimed iff — sunk exactly when below threshold AND border-reachable
through sunk cells — is false at this input. -/
theorem C2_counterexample :
    belowThreshold (lakeGrid 9 10) 1 = true ∧ flood lakeGrid 1 9 10 = -1 ∧
      ¬ SunkPath lakeGrid 9 10 := by
refine ⟨by decide, by decide, fun h => ?_⟩
have hb := lake_border _ _ h
exact absurd hb (by decide)

/-- Claim C2, amended: one flood call marks a cell sunk iff the cell is
below the rising threshold and either lies on the grid border or has an
already-sunk cell in its 8-neighborhood; propagation is one ring per
call, with no border-connectivity requirement on the sunk region. -/
theorem C2_flood_one_step : ∀ (g : Grid) (r : ℕ) (i j : Fin BOARD_SIZE),
    flood g r i j = -1 ↔
      (100 * g i j < (r : ℤ) ∧
        (onBorder i j = true ∨
          ∃ i2 j2 : Fin BOARD_SIZE, adj8 i j i2 j2 ∧ g i2 j2 < 0)) := by
intro g r i j
unfold flood
split
next hc =>
  rw [Bool.and_eq_true, Bool.or_eq_true] at hc
  obtain ⟨hb, hor⟩ := hc
  unfold belowThreshold at hb
  rw [decide_eq_true_iff] at hb
  constructor
  · intro _
    refine ⟨hb, ?_⟩
    rcases hor with h | h
    · exact Or.inr ((hasSunk_iff g i j).mp h)
    · exact Or.inl h
  · intro _
    rfl
next hc =>
  constructor
  · intro hneg
    exfalso
    apply hc
    rw [Bool.and_eq_true, Bool.or_eq_true]
    constructor
    · unfold belowThreshold
      rw [decide_eq_true_iff, hneg]
      omega
    · left
      rw [hasSunk_iff]
      exact ⟨i, j, adj8_self i j, by rw [hneg]; omega⟩
  · rintro ⟨hb, hor⟩
    exfalso
    apply hc
    rw [Bool.and_eq_true, Bool.or_eq_true]
    refine ⟨by unfold belowThreshold; rw [decide_eq_true_iff]; exact hb, ?_⟩
    rcases hor with h | h
    · exact Or.inr h
    · exact Or.inl ((hasSunk_iff g i j).mpr h)

/-- Claim C4, counterexample: flood is not idempotent. In corridorGrid,
one flood call at round 1 sinks the border cell (0, 9) but not the
interior corridor cell (1, 9); a second call at the same round then sinks
(1, 9), so flood(flood(g, 1), 1) differs from flood(g, 1). -/
theorem C4_counterexample :
    flood (flood corridorGrid 1) 1 ≠ flood corridorGrid 1 ∧
      flood (flood corridorGrid 1) 1 1 9 = -1 ∧ flood corridorGrid 1 1 9 = 0 := by
refine ⟨fun h => ?_, by decide, by decide⟩
have h2 := congrFun (congrFun h 1) 9
rw [show flood (flood corridorGrid 1) 1 1 9 = -1 from by decide,
  show flood corridorGrid 1 1 9 = 0 from by decide] at h2
exact absurd h2 (by decide)

/-- Claim C4, amended: a second flood application at the same round never
unsinks a cell — flood(flood(g, r), r) agrees with flood(g, r) on every
sunk cell and can only add further sunk cells (one extra ring of
propagation), so the sunk set of the twice-flooded grid contains the sunk
set of the once-flooded grid. -/
theorem C4_second_flood_keeps : ∀ (g : Grid) (r : ℕ) (i j : Fin BOARD_SIZE),
    flood g r i j = -1 → flood (flood g r) r i j = -1 :=
fun g r i j h => flood_keeps_sunk (flood g r) r i j h

/-- Witness for the amended claim C4 at a concrete input. -/
theorem C4_witness :
    flood corridorGrid 1 0 9 = -1 ∧ flood (flood corridorGrid 1) 1 0 9 = -1 :=
⟨by decide, C4_second_flood_keeps corridorGrid 1 0 9 (by decide)⟩

/-- Claim C5: flood is monotonic — every sunk cell of the input is sunk in
the output, and flooding sequentially through a later round r2 > r1
produces a sunk set containing the one at r1. -/
theorem C5_flood_monotone :
    (∀ (g : Grid) (r : ℕ) (i j : Fin BOARD_SIZE), g i j = -1 → flood g r i j = -1) ∧
    (∀ (g : Grid) (r1 r2 : ℕ), r1 < r2 → ∀ i j : Fin BOARD_SIZE,
      floodThrough g r1 i j = -1 → floodThrough g r2 i j = -1) := by
refine ⟨flood_keeps_sunk, ?_⟩
intro g r1 r2 hlt i j h
have key := floodThrough_keeps g r1 i j h (r2 - r1)
rw [show r1 + (r2 - r1) = r2 from by omega] at key
exact key

/-- Witness for claim C5 at a concrete input. -/
theorem C5_witness :
    flood lakeGrid 1 9 9 = -1 ∧ floodThrough lakeGrid 1 9 9 = -1 :=
⟨C5_flood_monotone.1 lakeGrid 1 9 9 (by decide),
  C5_flood_monotone.2 lakeGrid 0 1 (by decide) 9 9 (by decide)⟩

/-- One quarter turn applied four times is the identity on raw coordinate
pairs. -/
lemma rot1_four (p : ℤ × ℤ) : rot1 (rot1 (rot1 (rot1 p))) = p := by
obtain ⟨a, b⟩ := p
unfold rot1
dsimp only
rw [Prod.mk.injEq]
constructor <;> ring

/-- Iterating the quarter turn four times is the identity. -/
lemma rot1_iter4 (p : ℤ × ℤ) : rot1^[4] p = p := by
show rot1 (rot1 (rot1 (rot1 p))) = p
exact rot1_four p

/-- Composing rotate_move counts adds them. -/
lemma rotate_add (a b : ℕ) (m : Option Move) :
    rotate_move a (rotate_move b m) = rotate_move (a + b) m := by
cases m with
| none => rfl
| some mv => simp [rotate_move, Function.iterate_add_apply]

/-- Four quarter turns of a move restore it. -/
lemma rotate_four (m : Option Move) : rotate_move 4 m = m := by
cases m with
| none => rfl
| some mv => simp [rotate_move, rot1_iter4]

/-- Claim C6: the coordinate rotation is an exact order-4 action — for
every move and every k in 0..3, rotating by k and then by (4 - k) mod 4
restores the original coordinates exactly, and rotating by 4 is the
identity, for every in-bounds move. -/
theorem C6_rotate_order4 : ∀ (mv : Move) (k : ℕ), k ≤ 3 →
    in_bounds mv.1 = true → in_bounds mv.2 = true →
    rotate_move ((4 - k) % 4) (rotate_move k (some mv)) = some mv ∧
      rotate_move 4 (some mv) = some mv := by
intro mv k hk h1 h2
refine ⟨?_, rotate_four _⟩
interval_cases k
· rw [rotate_add]
  rfl
· rw [rotate_add]
  exact rotate_four _
· rw [rotate_add]
  exact rotate_four _
· rw [rotate_add]
  exact rotate_four _

/-- Witness for claim C6 at a concrete input. -/
theorem C6_witness :
    rotate_move ((4 - 1) % 4) (rotate_move 1 (some (((0 : ℤ), (0 : ℤ)), ((1 : ℤ), (2 : ℤ))))) =
        some (((0 : ℤ), (0 : ℤ)), ((1 : ℤ), (2 : ℤ))) ∧
      rotate_move 4 (some (((0 : ℤ), (0 : ℤ)), ((1 : ℤ), (2 : ℤ)))) =
        some (((0 : ℤ), (0 : ℤ)), ((1 : ℤ), (2 : ℤ))) :=
C6_rotate_order4 (((0 : ℤ), (0 : ℤ)), ((1 : ℤ), (2 : ℤ))) 1 (by decide) (by decide) (by decide)

/-- Claim C7: is_legal holds exactly when both endpoints are in bounds,
neither endpoint is a city, the source is strictly positive, and the
destination is neither -1 nor 8; in particular it is false whenever
either endpoint is a city or out of bounds. -/
theorem C7_is_legal_characterization : ∀ (g : Grid) (src dst : ℤ × ℤ),
    (is_legal g src dst = true ↔
      in_bounds src = true ∧ in_bounds dst = true ∧ src ∉ CITIES ∧ dst ∉ CITIES ∧
        0 < gget g src ∧ gget g dst ≠ -1 ∧ gget g dst ≠ 8) ∧
    ((src ∈ CITIES ∨ dst ∈ CITIES ∨ in_bounds src = false ∨ in_bounds dst = false) →
      is_legal g src dst = false) := by
intro g src dst
have hiff := legal_iff g src dst
constructor
· rw [hiff]
  constructor
  · rintro ⟨a, b, c, d, e, f1, f2⟩
    exact ⟨(in_bounds_iff src).mpr a, (in_bounds_iff dst).mpr b, f1, f2, c, d, e⟩
  · rintro ⟨a, b, f1, f2, c, d, e⟩
    exact ⟨(in_bounds_iff src).mp a, (in_bounds_iff dst).mp b, c, d, e, f1, f2⟩
· intro hcase
  cases hE : is_legal g src dst with
  | false => rfl
  | true =>
      exfalso
      rw [hiff] at hE
      obtain ⟨a, b, -, -, -, f1, f2⟩ := hE
      rcases hcase with hc | hc | hc | hc
      · exact f1 hc
      · exact f2 hc
      · have := (in_bounds_iff src).mpr a
        simp [this] at hc
      · have := (in_bounds_iff dst).mpr b
        simp [this] at hc

/-- Witness for claim C7 at a concrete input: a move out of a city cell is
illegal. -/
theorem C7_witness : is_legal START_TERRAIN ((5 : ℤ), (5 : ℤ)) ((5 : ℤ), (6 : ℤ)) = false :=
(C7_is_legal_characterization START_TERRAIN (5, 5) (5, 6)).2 (Or.inl (by decide))

/-- A legal candidate move rewrites the grid by the source decrement
followed by the destination increment. -/
lemma applyMove_pos (g : Grid) (m : Move) (h : is_legal g m.1 m.2 = true) :
    applyMove g m =
      gset (gset g m.1 (gget g m.1 - 1)) m.2
        (gget (gset g m.1 (gget g m.1 - 1)) m.2 + 1) := by
unfold applyMove
rw [if_pos h]

/-- An illegal candidate move leaves the grid unchanged. -/
lemma applyMove_neg (g : Grid) (m : Move) (h : is_legal g m.1 m.2 = false) :
    applyMove g m = g := by
unfold applyMove
rw [if_neg (by simp [h])]

/-- Claim C1, counterexample: deadBoard is Terminal (running is false),
yet step is not a no-op on it — with no living agent the candidate list
is empty, and the round counter still advances. -/
theorem C1_counterexample :
    running deadBoard = false ∧
      (stepMoves deadBoard []).round_num ≠ deadBoard.round_num := by
refine ⟨by decide, by decide⟩

/-- Claim C1, amended: step has no Terminal guard — called on a board
with running false it still runs a full round and in particular always
advances the round counter by exactly one; the driver, not step, stops
the match once Terminal. -/
theorem C1_step_advances : ∀ (b : Board) (moves : List (Option Move)),
    running b = false → (stepMoves b moves).round_num = b.round_num + 1 := by
intro b moves _
exact stepMoves_round b moves

/-- Witness for the amended claim C1 at a concrete input. -/
theorem C1_witness :
    running deadBoard = false ∧
      (stepMoves deadBoard []).round_num = deadBoard.round_num + 1 :=
⟨by decide, C1_step_advances deadBoard [] (by decide)⟩

/-- Claim C3, counterexample: on conflictBoard the two living-agent
candidates (0,0) -> (0,1) and (0,2) -> (0,1) name the same destination
holding 4; in both shuffle orders both applications succeed and the
destination rises by 2, not by exactly 1. -/
theorem C3_counterexample :
    conflictBoard.terrain 0 1 = 4 ∧
      (stepMoves conflictBoard
        [some ((0, 0), (0, 1)), some ((0, 2), (0, 1))]).terrain 0 1 = 6 ∧
      (stepMoves conflictBoard
        [some ((0, 2), (0, 1)), some ((0, 0), (0, 1))]).terrain 0 1 = 6 := by
refine ⟨by decide, by decide, by decide⟩

/-- Claim C3, amended: each same-destination candidate is re-validated
against the current partially mutated grid, and every candidate still
legal applies; exactly one of the two succeeds precisely when the shared
destination starts at the 8-cap boundary value 7 — the first candidate
raises it to 8, the second fails re-validation and is skipped with its
source untouched (the loop records nothing for the loser). -/
theorem C3_cap_conflict : ∀ (g : Grid) (s1 s2 d : ℤ × ℤ),
    is_legal g s1 d = true → is_legal g s2 d = true → gget g d = 7 →
    s1 ≠ d → s2 ≠ d → s2 ≠ s1 →
    gget (applyMoves g [some (s1, d), some (s2, d)]) d = gget g d + 1 ∧
      gget (applyMoves g [some (s1, d), some (s2, d)]) s1 = gget g s1 - 1 ∧
      gget (applyMoves g [some (s1, d), some (s2, d)]) s2 = gget g s2 := by
intro g s1 s2 d h1 h2 hd7 hs1d hs2d hs21
obtain ⟨hInBs1, hInBd, hpos1, -, -, -, -⟩ := (legal_iff g s1 d).mp h1
obtain ⟨hInBs2, -, -, -, -, -, -⟩ := (legal_iff g s2 d).mp h2
have hv_d : gget (applyMove g (s1, d)) d = gget g d + 1 := by
  rw [applyMove_pos g (s1, d) h1]
  rw [gget_gset _ d d _ hInBd, if_pos (show d = d from rfl)]
  rw [gget_gset _ s1 d _ hInBd, if_neg (Ne.symm hs1d)]
have h8 : gget (applyMove g (s1, d)) d = 8 := by
  rw [hv_d, hd7]
  norm_num
have hleg2 : is_legal (applyMove g (s1, d)) s2 d = false := by
  cases hE : is_legal (applyMove g (s1, d)) s2 d with
  | false => rfl
  | true =>
      exfalso
      exact ((legal_iff _ s2 d).mp hE).2.2.2.2.1 h8
have e2 : applyMoves g [some (s1, d), some (s2, d)] = applyMove g (s1, d) := by
  show applyMove (applyMove g (s1, d)) (s2, d) = applyMove g (s1, d)
  exact applyMove_neg _ _ hleg2
refine ⟨?_, ?_, ?_⟩
· rw [e2]
  exact hv_d
· rw [e2, applyMove_pos g (s1, d) h1]
  rw [gget_gset _ d s1 _ hInBs1, if_neg hs1d]
  rw [gget_gset _ s1 s1 _ hInBs1, if_pos (show s1 = s1 from rfl)]
· rw [e2, applyMove_pos g (s1, d) h1]
  rw [gget_gset _ d s2 _ hInBs2, if_neg hs2d]
  rw [gget_gset _ s1 s2 _ hInBs2, if_neg hs21]

/-- Witness for the amended claim C3 at a concrete input on capGrid. -/
theorem C3_witness :
    gget (applyMoves capGrid
        [some (((0 : ℤ), (0 : ℤ)), ((0 : ℤ), (1 : ℤ))),
          some (((0 : ℤ), (2 : ℤ)), ((0 : ℤ), (1 : ℤ)))]) ((0 : ℤ), (1 : ℤ)) =
      gget capGrid ((0 : ℤ), (1 : ℤ)) + 1 ∧
    gget (applyMoves capGrid
        [some (((0 : ℤ), (0 : ℤ)), ((0 : ℤ), (1 : ℤ))),
          some (((0 : ℤ), (2 : ℤ)), ((0 : ℤ), (1 : ℤ)))]) ((0 : ℤ), (0 : ℤ)) =
      gget capGrid ((0 : ℤ), (0 : ℤ)) - 1 ∧
    gget (applyMoves capGrid
        [some (((0 : ℤ), (0 : ℤ)), ((0 : ℤ), (1 : ℤ))),
          some (((0 : ℤ), (2 : ℤ)), ((0 : ℤ), (1 : ℤ)))]) ((0 : ℤ), (2 : ℤ)) =
      gget capGrid ((0 : ℤ), (2 : ℤ)) :=
C3_cap_conflict capGrid (0, 0) (0, 2) (0, 1)
  (by decide) (by decide) (by decide) (by decide) (by decide) (by decide)

/-- Claim C8: in every reachable board state, every cell value lies in
[-1, 8] — applied moves only transfer one unit from a positive source to
a below-cap destination, and only flood writes -1. -/
theorem C8_terrain_bounds : ∀ b : Board, Reachable b →
    ∀ i j : Fin BOARD_SIZE, -1 ≤ b.terrain i j ∧ b.terrain i j ≤ 8 := by
intro b hb
induction hb with
| init => decide
| step b moves hb ih =>
    intro i j
    rw [stepMoves_terrain]
    exact flood_bounds _ _ (applyMoves_bounds moves b.terrain ih) i j

/-- Witness for claim C8 at the initial board and a concrete cell. -/
theorem C8_witness :
    -1 ≤ initBoard.terrain 0 0 ∧ initBoard.terrain 0 0 ≤ 8 :=
C8_terrain_bounds initBoard Reachable.init 0 0

/-- Claim C9, counterexample: a bot that returns, within budget, a value
not decomposable into two integer pairs whose decomposition raises
outside the four classes enumerated at the except clause (e.g. a
RuntimeError from a custom iterator) does not get None substituted —
the exception escapes get_move, and since step catches nothing it aborts
the match, refuting the no-exception-escapes claim at this input. -/
theorem C9_counterexample :
    get_move START_TERRAIN 0 (BotOutcome.returns false RawMove.malformedEscapes) ≠
      GetMoveResult.ret none ∧
    get_move START_TERRAIN 0 (BotOutcome.returns false RawMove.malformedEscapes) =
      GetMoveResult.exn := by
refine ⟨by decide, by decide⟩

/-- Claim C9, amended: whenever the decision function raises an
Exception, returns nothing, returns a value whose decomposition fails
with one of the four caught classes TypeError / ValueError / IndexError
/ AttributeError (which includes every value failing the integer
isinstance check), or returns a move that fails is_legal on the rotated
snapshot it observed, get_move returns None and no exception escapes,
leaving all match state unchanged; but a raised BaseException outside
Exception, or a within-budget return whose decomposition raises any
other exception class, escapes get_move and aborts the match. -/
theorem C9_sandbox_caught : ∀ (terrain : Grid) (bot_idx : Fin 4) (outcome : BotOutcome),
    ((outcome = BotOutcome.throws ∨
      (∃ s, outcome = BotOutcome.returns s RawMove.pass) ∨
      (∃ s, outcome = BotOutcome.returns s RawMove.malformedCaught) ∨
      (∃ s i0 j0 i1 j1, outcome = BotOutcome.returns s (RawMove.pair i0 j0 i1 j1) ∧
        is_legal (rot90^[bot_idx.val] terrain) (i0, j0) (i1, j1) = false)) →
      get_move terrain bot_idx outcome = GetMoveResult.ret none) ∧
    ((outcome = BotOutcome.throwsBase ∨
      outcome = BotOutcome.returns false RawMove.malformedEscapes) →
      get_move terrain bot_idx outcome = GetMoveResult.exn) := by
intro terrain bot_idx outcome
constructor
· intro hcase
  rcases hcase with rfl | ⟨s, rfl⟩ | ⟨s, rfl⟩ | ⟨s, i0, j0, i1, j1, rfl, hleg⟩
  · rfl
  · cases s <;> rfl
  · cases s <;> rfl
  · cases s
    · unfold get_move
      simp [hleg]
    · rfl
· intro hcase
  rcases hcase with rfl | rfl
  · rfl
  · rfl

/-- Witness for the amended claim C9 at concrete inputs: a caught
Exception yields None, an uncaught BaseException escapes. -/
theorem C9_witness :
    get_move START_TERRAIN 0 BotOutcome.throws = GetMoveResult.ret none ∧
      get_move START_TERRAIN 1 BotOutcome.throwsBase = GetMoveResult.exn :=
⟨(C9_sandbox_caught START_TERRAIN 0 BotOutcome.throws).1 (Or.inl rfl),
  (C9_sandbox_caught START_TERRAIN 1 BotOutcome.throwsBase).2 (Or.inl rfl)⟩

/-- In every reachable board state each city cell holds 0 or -1. -/
lemma city_state : ∀ b : Board, Reachable b → ∀ k : Fin 4,
    b.terrain (CITY k).1 (CITY k).2 = 0 ∨ b.terrain (CITY k).1 (CITY k).2 = -1 := by
intro b hb
induction hb with
| init => decide
| step b moves hb ih =>
    intro k
    rcases flood_cases (applyMoves b.terrain moves) b.round_num (CITY k).1 (CITY k).2 with h | h
    · right
      rw [stepMoves_terrain]
      exact h
    · rw [stepMoves_terrain, h, applyMoves_city moves b.terrain k]
      exact ih k

/-- Claim C10: in every reachable board state each city cell holds 0 or
-1; no applied candidate ever changes a city cell, and a sunk city stays
sunk across any further step, so alive status only transitions from alive
to eliminated. -/
theorem C10_city_invariant : ∀ b : Board, Reachable b → ∀ k : Fin 4,
    (b.terrain (CITY k).1 (CITY k).2 = 0 ∨ b.terrain (CITY k).1 (CITY k).2 = -1) ∧
    (∀ moves : List (Option Move),
      applyMoves b.terrain moves (CITY k).1 (CITY k).2 = b.terrain (CITY k).1 (CITY k).2) ∧
    (b.terrain (CITY k).1 (CITY k).2 = -1 →
      ∀ moves : List (Option Move),
        (stepMoves b moves).terrain (CITY k).1 (CITY k).2 = -1) := by
intro b hb k
refine ⟨city_state b hb k, fun moves => applyMoves_city moves b.terrain k, ?_⟩
intro hsunk moves
rw [stepMoves_terrain]
apply flood_keeps_sunk
rw [applyMoves_city moves b.terrain k]
exact hsunk

/-- Witness for claim C10 at the initial board. -/
theorem C10_witness :
    initBoard.terrain (CITY 0).1 (CITY 0).2 = 0 ∨
      initBoard.terrain (CITY 0).1 (CITY 0).2 = -1 :=
(C10_city_invariant initBoard Reachable.init 0).1

end RisingTide
